import Mathlib

/-!
Verification of the AURELIAN'S CLOSET outfit-generation pipeline.

This file gives a shallow embedding, in Lean 4, of the TypeScript services of
the repository: the quality scorer and request router of the unified platform
(`unifiedPlatformService`), the specification / image generators
(`geminiService`), the FIBO generator and batch runner (`fiboService`), and the
voice assistant's conversation history (`elevenLabsService`).  JavaScript
numbers are modelled as exact rationals, strings as Lean strings, `Promise`
returning code as explicit `Except` values, and the external model endpoint as
an explicit environment parameter mapping prompts to call outcomes.
-/

namespace Aurelian

/-! ## JavaScript helpers -/

/-- Token estimation constant from `serviceConstants.ts`: `CHARS_PER_TOKEN = 4`. -/
def CHARS_PER_TOKEN : Nat := 4

/-- Embedding of `Math.ceil(a / b)` for natural `a` and positive natural `b`. -/
def ceilDiv (a b : Nat) : Nat := (a + b - 1) / b

/-- JavaScript truthiness of an optional string (`undefined` and `""` are falsy). -/
def jsTruthy : Option String → Bool
  | none => false
  | some s => !(s == "")

/-! ## Runtime outfit specification (`FIBOOutfitSpec`)

The TypeScript interface `FIBOOutfitSpec` of `fiboService.ts` declares every
field as required, but at runtime the values are produced by
`JSON.parse(...) as FIBOOutfitSpec` — an unchecked cast — so any field may be
absent.  The consumers (`calculateQualityScore`, the `fibo_structured_params`
attachment) guard some accesses and not others; we therefore model the runtime
value with optional fields. -/

structure WeatherRT where
  temperature : Option ℚ
  conditions : Option String
deriving DecidableEq, Repr

structure ColorRT where
  hex : Option String
  role : Option String
deriving DecidableEq, Repr

structure ColorSchemeRT where
  primary : Option ColorRT
  accent : Option ColorRT
deriving DecidableEq, Repr

structure TextureLayerRT where
  material : Option String
  weight : Option String
  sheen : Option ℚ
deriving DecidableEq, Repr

structure CameraRT where
  angle : Option String
  lighting : Option String
  fov : Option ℚ
  lighting_temperature : Option ℚ
deriving DecidableEq, Repr

structure StyleParametersRT where
  realism : Option ℚ
  aesthetic : Option String
deriving DecidableEq, Repr

/-- The `FIBOParameters` interface of `fiboService.ts`, as constructed by the
`fibo_structured_params` attachment; fields copied from possibly-missing spec
fields are optional. -/
structure FIBOParameters where
  prompt : String
  camera_angle : Option String
  camera_fov : ℚ
  lighting_type : Option String
  lighting_temperature : ℚ
  style_realism : Option ℚ
  style_aesthetic : Option String
  materials_primary : String
  materials_secondary : String
  colors_palette : List (Option String)
  colors_harmony : String
deriving DecidableEq, Repr

/-- Runtime value of the `FIBOOutfitSpec` interface of `fiboService.ts`. -/
structure FIBOOutfitSpec where
  occasion : Option String
  weather : Option WeatherRT
  color_scheme : Option ColorSchemeRT
  texture_layers : Option (List TextureLayerRT)
  camera : Option CameraRT
  style_parameters : Option StyleParametersRT
  description : Option String
  fibo_structured_params : Option FIBOParameters
deriving DecidableEq, Repr

/-! ## Quality scorer (`unifiedPlatformService.ts`, `calculateQualityScore`) -/

/-- The check `if (outfitSpec.color_scheme)` of `calculateQualityScore`. -/
def checkColorScheme (s : FIBOOutfitSpec) : Bool := s.color_scheme.isSome

/-- The check `if (outfitSpec.texture_layers && outfitSpec.texture_layers.length > 0)`. -/
def checkTextureLayers (s : FIBOOutfitSpec) : Bool :=
  match s.texture_layers with
  | none => false
  | some l => decide (0 < l.length)

/-- The check `if (outfitSpec.camera)`. -/
def checkCamera (s : FIBOOutfitSpec) : Bool := s.camera.isSome

/-- The check `if (outfitSpec.description && outfitSpec.description.length > 50)`. -/
def checkDescription (s : FIBOOutfitSpec) : Bool :=
  match s.description with
  | none => false
  | some d => decide (50 < d.length)

/-- Direct translation of `calculateQualityScore` from `unifiedPlatformService.ts`:
returns 0 for a missing spec, otherwise accumulates a base score of 0.7 with
fixed increments for the four presence checks and clamps with `Math.min(score, 1.0)`. -/
def calculateQualityScore (outfitSpec : Option FIBOOutfitSpec) : ℚ :=
  match outfitSpec with
  | none => 0
  | some s =>
    let score : ℚ := 0.7
    let score := if checkColorScheme s then score + 0.1 else score
    let score := if checkTextureLayers s then score + 0.1 else score
    let score := if checkCamera s then score + 0.05 else score
    let score := if checkDescription s then score + 0.05 else score
    min score 1.0

/-- The accumulation of `calculateQualityScore` as a function of the four
boolean check outcomes alone (the code reads the spec only through the four
checks, so the two agree definitionally). -/
def scoreOfChecks (c t m d : Bool) : ℚ :=
  let score : ℚ := 0.7
  let score := if c then score + 0.1 else score
  let score := if t then score + 0.1 else score
  let score := if m then score + 0.05 else score
  let score := if d then score + 0.05 else score
  min score 1.0

/-! ## Parameter extraction (`unifiedPlatformService.ts`) -/

/-- The `OutfitParams` interface from `types.ts`: four free-text strings. -/
structure OutfitParams where
  occasion : String
  weather : String
  mood : String
  style : String
deriving DecidableEq, Repr

/-- Embedding of JavaScript `haystack.includes(needle)` on lists of characters:
`true` iff `needle` occurs contiguously in `haystack`. -/
def charsStartWith : List Char → List Char → Bool
  | [], _ => true
  | _ :: _, [] => false
  | p :: ps, c :: cs => p == c && charsStartWith ps cs

/-- Contiguous-occurrence search used by `jsIncludes`. -/
def charsContain (needle : List Char) : List Char → Bool
  | [] => needle.isEmpty
  | c :: cs => charsStartWith needle (c :: cs) || charsContain needle cs

/-- Embedding of `haystack.includes(needle)`. -/
def jsIncludes (haystack needle : String) : Bool :=
  charsContain needle.toList haystack.toList

/-- Embedding of JavaScript `text.toLowerCase()`, character by character (it
agrees with `toLowerCase` on the ASCII keywords this code compares against). -/
def jsToLowerCase (s : String) : String :=
  String.mk (s.data.map Char.toLower)

/-- The `occasionMap` object literal of `extractOccasion`, in property order. -/
def occasionMap : List (String × String) :=
  [("work", "work"),
   ("business", "business meeting"),
   ("meeting", "business meeting"),
   ("casual", "casual"),
   ("dinner", "dinner"),
   ("date", "date night"),
   ("party", "party"),
   ("formal", "formal event"),
   ("gala", "evening gala")]

/-- Direct translation of `extractOccasion`: the first entry of `occasionMap`
whose keyword occurs in the lower-cased text wins; otherwise `'casual'`. -/
def extractOccasion (text : String) : String :=
  match occasionMap.find? (fun kv => jsIncludes (jsToLowerCase text) kv.1) with
  | some kv => kv.2
  | none => "casual"

/-- Direct translation of `extractParamsFromText` from `unifiedPlatformService.ts`. -/
def extractParamsFromText (text : String) : OutfitParams :=
  { occasion := extractOccasion text
  , weather := "moderate"
  , mood := "confident"
  , style := "modern professional" }

/-! ## JSON values and `JSON.parse`

`generateOutfitSpecification` and `generateFIBOOutfit` run the model response
text through `JSON.parse(...)` and use the resulting value unvalidated.  We
embed JSON values as an inductive type and `JSON.parse` as a recursive-descent
parser (fuelled for termination; the fuel is generous enough for any input of
the given length). -/

inductive Json where
  | null
  | str (s : String)
  | num (q : ℚ)
  | bool (b : Bool)
  | arr (items : List Json)
  | obj (entries : List (String × Json))
deriving Repr

/-- JavaScript property access `j[key]` on a parsed JSON value: only objects
have properties, and `JSON.parse` keeps the last duplicate key. -/
def Json.getField (j : Json) (key : String) : Option Json :=
  match j with
  | .obj entries => entries.foldl (fun acc kv => if kv.1 = key then some kv.2 else acc) none
  | _ => none

def Json.asStr : Json → Option String
  | .str s => some s
  | _ => none

def Json.asNum : Json → Option ℚ
  | .num q => some q
  | _ => none

def Json.asArr : Json → Option (List Json)
  | .arr l => some l
  | _ => none

/-- The left and right curly-brace characters. -/
def lbrace : Char := Char.ofNat 123

def rbrace : Char := Char.ofNat 125

def jsonWs (c : Char) : Bool := [' ', '\t', '\n', '\r'].contains c

def skipWs : List Char → List Char
  | [] => []
  | ch :: cs => if jsonWs ch then skipWs cs else ch :: cs

def digitVal (c : Char) : Nat := c.toNat - '0'.toNat

def takeDigits : List Char → List Char × List Char
  | [] => ([], [])
  | c :: cs =>
    if c.isDigit then
      let p := takeDigits cs
      (c :: p.1, p.2)
    else ([], c :: cs)

def digitsToNat (ds : List Char) : Nat := ds.foldl (fun a c => 10 * a + digitVal c) 0

def isHexDigitCh (c : Char) : Bool :=
  c.isDigit || ('a' ≤ c && c ≤ 'f') || ('A' ≤ c && c ≤ 'F')

def hexVal (c : Char) : Nat :=
  if c.isDigit then digitVal c
  else if 'a' ≤ c && c ≤ 'f' then c.toNat - 'a'.toNat + 10
  else c.toNat - 'A'.toNat + 10

/-- JSON string escape characters (after a backslash). -/
def escChar (e : Char) : Option Char :=
  if e == 'n' then some '\n'
  else if e == 't' then some '\t'
  else if e == 'r' then some '\r'
  else if e == '"' then some '"'
  else if e == '\\' then some '\\'
  else if e == '/' then some '/'
  else if e == 'b' then some (Char.ofNat 8)
  else if e == 'f' then some (Char.ofNat 12)
  else none

/-- Parse the remainder of a JSON string literal (the opening quote already
consumed), returning its characters and the rest of the input. -/
def parseStrChars : List Char → Option (List Char × List Char)
  | [] => none
  | '"' :: rest => some ([], rest)
  | '\\' :: 'u' :: h1 :: h2 :: h3 :: h4 :: rest =>
    if isHexDigitCh h1 && isHexDigitCh h2 && isHexDigitCh h3 && isHexDigitCh h4 then
      match parseStrChars rest with
      | some p =>
        some (Char.ofNat (((hexVal h1 * 16 + hexVal h2) * 16 + hexVal h3) * 16 + hexVal h4)
          :: p.1, p.2)
      | none => none
    else none
  | '\\' :: e :: rest =>
    match escChar e with
    | some c =>
      match parseStrChars rest with
      | some p => some (c :: p.1, p.2)
      | none => none
    | none => none
  | c :: rest =>
    match parseStrChars rest with
    | some p => some (c :: p.1, p.2)
    | none => none

/-- Parse a JSON number (sign, integer part, optional fraction, optional
exponent) into an exact rational. -/
def parseNumber (cs : List Char) : Option (ℚ × List Char) :=
  let sp : Bool × List Char :=
    if cs.head? == some '-' then (true, cs.tail) else (false, cs)
  let ip := takeDigits sp.2
  if ip.1.isEmpty then none
  else
    let ipart : ℚ := (digitsToNat ip.1 : ℕ)
    let fracRes : Option (ℚ × List Char) :=
      match ip.2 with
      | '.' :: r =>
        let fp := takeDigits r
        if fp.1.isEmpty then none
        else some (ipart + (digitsToNat fp.1 : ℚ) / ((10 : ℚ) ^ fp.1.length), fp.2)
      | _ => some (ipart, ip.2)
    match fracRes with
    | none => none
    | some mg =>
      let expRes : Option (ℚ × List Char) :=
        match mg.2 with
        | 'e' :: r | 'E' :: r =>
          let sg : Int × List Char := match r with
            | '+' :: rr => (1, rr)
            | '-' :: rr => (-1, rr)
            | _ => (1, r)
          let ep := takeDigits sg.2
          if ep.1.isEmpty then none
          else some (mg.1 * (10 : ℚ) ^ (sg.1 * (digitsToNat ep.1 : Int)), ep.2)
        | _ => some mg
      match expRes with
      | none => none
      | some v => some (if sp.1 then -v.1 else v.1, v.2)

mutual

/-- Parse one JSON value (leading whitespace allowed). -/
def parseValue : Nat → List Char → Option (Json × List Char)
  | 0, _ => none
  | fuel + 1, cs =>
    match skipWs cs with
    | 'n' :: 'u' :: 'l' :: 'l' :: rest => some (.null, rest)
    | 't' :: 'r' :: 'u' :: 'e' :: rest => some (.bool true, rest)
    | 'f' :: 'a' :: 'l' :: 's' :: 'e' :: rest => some (.bool false, rest)
    | '"' :: rest =>
      match parseStrChars rest with
      | some p => some (.str (String.mk p.1), p.2)
      | none => none
    | '[' :: rest =>
      match skipWs rest with
      | ']' :: rest2 => some (.arr [], rest2)
      | _ =>
        match parseElems fuel rest with
        | some p => some (.arr p.1, p.2)
        | none => none
    | c :: rest =>
      if c == lbrace then
        match skipWs rest with
        | c2 :: rest2 =>
          if c2 == rbrace then some (.obj [], rest2)
          else
            match parseMembers fuel (c2 :: rest2) with
            | some p => some (.obj p.1, p.2)
            | none => none
        | [] => none
      else
        match parseNumber (c :: rest) with
        | some p => some (.num p.1, p.2)
        | none => none
    | [] => none

/-- Parse the elements of a non-empty JSON array, up to the closing bracket. -/
def parseElems : Nat → List Char → Option (List Json × List Char)
  | 0, _ => none
  | fuel + 1, cs =>
    match parseValue fuel cs with
    | none => none
    | some v =>
      match skipWs v.2 with
      | ',' :: rest =>
        match parseElems fuel rest with
        | some p => some (v.1 :: p.1, p.2)
        | none => none
      | ']' :: rest => some ([v.1], rest)
      | _ => none

/-- Parse the members of a non-empty JSON object, up to the closing brace. -/
def parseMembers : Nat → List Char → Option (List (String × Json) × List Char)
  | 0, _ => none
  | fuel + 1, cs =>
    match skipWs cs with
    | '"' :: rest =>
      match parseStrChars rest with
      | none => none
      | some k =>
        match skipWs k.2 with
        | ':' :: rest2 =>
          match parseValue fuel rest2 with
          | none => none
          | some v =>
            match skipWs v.2 with
            | ',' :: rest3 =>
              match parseMembers fuel rest3 with
              | some p => some ((String.mk k.1, v.1) :: p.1, p.2)
              | none => none
            | c :: rest3 =>
              if c == rbrace then some ([(String.mk k.1, v.1)], rest3) else none
            | [] => none
        | _ => none
    | _ => none

end

/-- Embedding of `JSON.parse`: parse one value and require only whitespace to
follow; `none` models the thrown `SyntaxError`. -/
def jsonParse (s : String) : Option Json :=
  match parseValue (2 * s.length + 8) s.toList with
  | some p => if (skipWs p.2).isEmpty then some p.1 else none
  | none => none

/-! ## Voice assistant conversation history (`elevenLabsService.ts`)

`VoiceFashionAssistant` keeps `conversationHistory : Map<string, any[]>`; each
entry pushed by `updateConversationHistory` is an object with `user`,
`assistant` and `timestamp` fields (the timestamp comes from the clock, so it
is a parameter here). -/

structure Exchange where
  user : String
  assistant : String
  timestamp : String
deriving DecidableEq, Repr

/-- Direct translation of the body of `updateConversationHistory` acting on one
user's history list: push the new exchange, then `shift()` (drop the oldest
entry) when the length exceeds 10. -/
def updateConversationHistory (history : List Exchange)
    (userMessage assistantMessage timestamp : String) : List Exchange :=
  let history := history ++ [⟨userMessage, assistantMessage, timestamp⟩]
  if 10 < history.length then history.drop 1 else history

/-- The `conversationHistory` map, modelled extensionally; `Map.get` with the
`|| []` default of the source is application, `Map.set` is pointwise update. -/
def ConversationMap := String → List Exchange

/-- The empty `Map` a fresh `VoiceFashionAssistant` starts with. -/
def emptyConversationMap : ConversationMap := fun _ => []

/-- `updateConversationHistory` at the level of the per-user map: read the
user's history (defaulting to `[]`), update it, and store it back. -/
def updateConversationMap (m : ConversationMap)
    (userId userMessage assistantMessage timestamp : String) : ConversationMap :=
  fun k =>
    if k = userId then updateConversationHistory (m userId) userMessage assistantMessage timestamp
    else m k

/-- One history update request: user id, user message, assistant message, and
the timestamp the clock supplied. -/
structure HistoryUpdate where
  userId : String
  userMessage : String
  assistantMessage : String
  timestamp : String
deriving DecidableEq, Repr

/-- Replay a sequence of `updateConversationHistory` calls against the map. -/
def applyUpdates (m : ConversationMap) (updates : List HistoryUpdate) : ConversationMap :=
  updates.foldl
    (fun acc u => updateConversationMap acc u.userId u.userMessage u.assistantMessage u.timestamp)
    m

/-- The exchanges a sequence of updates pushes for a given user id, in order. -/
def exchangesFor (userId : String) (updates : List HistoryUpdate) : List Exchange :=
  updates.filterMap fun u =>
    if u.userId = userId then some ⟨u.userMessage, u.assistantMessage, u.timestamp⟩ else none

/-- The suffix of the most recent `n` entries of a list. -/
def lastN (n : Nat) (l : List α) : List α := l.drop (l.length - n)

/-! ## Batch runner (`fiboService.ts`, `generateFIBOBatch`) -/

/-- The chunking of the `for (let i = 0; i < paramsArray.length; i += batchSize)`
loop of `generateFIBOBatch` with `batchSize = 3`: consecutive slices of size 3. -/
def chunks3 : List α → List (List α)
  | [] => []
  | x :: xs => (x :: xs).take 3 :: chunks3 ((x :: xs).drop 3)
termination_by l => l.length
decreasing_by
  simp only [List.drop_succ_cons, List.length_drop, List.length_cons]
  omega

/-- Translation of `generateFIBOBatch` with the per-item generator abstracted:
slice off a batch of 3, await all of its generations (`Promise.all`, which
rejects with the first failure), append the results in order, and continue
with the rest.  `Except` models promise rejection. -/
def generateFIBOBatchG (gen : OutfitParams → Except String FIBOOutfitSpec) :
    List OutfitParams → Except String (List FIBOOutfitSpec)
  | [] => Except.ok []
  | p :: ps => do
    let batchResults ← ((p :: ps).take 3).mapM gen
    let rest ← generateFIBOBatchG gen ((p :: ps).drop 3)
    return batchResults ++ rest
termination_by l => l.length
decreasing_by
  simp only [List.drop_succ_cons, List.length_drop, List.length_cons]
  omega

/-! ## Telemetry (`datadogService.ts`) -/

/-- The `GenerationTelemetry` interface of `datadogService.ts`. -/
structure GenerationTelemetry where
  input_tokens : Nat
  output_tokens : Nat
  generation_ms : Nat
  model : String
  camera_angle : Option String
  lighting : Option String
  success : Bool
  quality_score : Option ℚ
  user_id : Option String
  endpoint : String
deriving DecidableEq, Repr

/-- `AI_MODELS.GEMINI_FLASH` from `serviceConstants.ts`. -/
def GEMINI_FLASH : String := "gemini-2.5-flash"

/-- `AI_MODELS.GEMINI_FLASH_IMAGE` from `serviceConstants.ts`. -/
def GEMINI_FLASH_IMAGE : String := "gemini-2.5-flash-image"

/-! ## Model endpoint calls

`ai.models.generateContent` either resolves with a response or rejects; the
environment maps each prompt to its outcome. -/

/-- The part of a text-generation response the services read: `response.text`. -/
structure GenTextResponse where
  text : Option String
deriving DecidableEq, Repr

/-- Outcome of one `ai.models.generateContent` call for a text request. -/
inductive SpecCall where
  | resolve (response : GenTextResponse)
  | reject (errorMessage : String)
deriving DecidableEq, Repr

/-! ## Specification generator (`geminiService.ts`) -/

/-- The pieces of the template literal of `generateOutfitSpecification`'s
prompt, around the four interpolated parameters. -/
def specPromptA : String :=
  "\n    You are the \"Aurelian Engine\", a high-precision fashion generation system.\n    Create a detailed structured JSON specification for an outfit based on these parameters:\n    Occasion: "

def specPromptB : String := "\n    Weather: "

def specPromptC : String := "\n    Mood: "

def specPromptD : String := "\n    Style: "

def specPromptE : String :=
  "\n\n    Return ONLY the JSON. The JSON must adhere to this structure:\n    \x7b\n      \"occasion\": string,\n      \"weather\": \x7b \"temperature\": number, \"conditions\": string \x7d,\n      \"color_scheme\": \x7b \"primary\": \x7b \"hex\": string, \"role\": string \x7d, \"accent\": \x7b \"hex\": string, \"role\": string \x7d \x7d,\n      \"texture_layers\": [ \x7b \"material\": string, \"weight\": string, \"sheen\": number (0-1) \x7d ],\n      \"camera\": \x7b \"angle\": string, \"lighting\": string \x7d,\n      \"description\": string (A highly detailed visual description for an image generator)\n    \x7d\n  "

/-- The prompt template literal of `generateOutfitSpecification`. -/
def buildSpecPrompt (params : OutfitParams) : String :=
  specPromptA ++ params.occasion ++ specPromptB ++ params.weather ++
    specPromptC ++ params.mood ++ specPromptD ++ params.style ++ specPromptE

/-- The telemetry record streamed by the `catch` block of
`generateOutfitSpecification`: prompt-derived input tokens, zero output
tokens, `success: false`. -/
def specFailureTelemetry (params : OutfitParams) (generationTime : Nat) :
    GenerationTelemetry :=
  { input_tokens := ceilDiv (buildSpecPrompt params).length CHARS_PER_TOKEN
  , output_tokens := 0
  , generation_ms := generationTime
  , model := GEMINI_FLASH
  , camera_angle := none
  , lighting := none
  , success := false
  , quality_score := none
  , user_id := none
  , endpoint := "outfit_specification" }

/-- The telemetry record streamed on the success path of
`generateOutfitSpecification` (`spec.camera?.angle` and `?.lighting` are
optional-chained accesses on the parsed JSON). -/
def specSuccessTelemetry (params : OutfitParams) (responseText : String)
    (spec : Json) (generationTime : Nat) : GenerationTelemetry :=
  { input_tokens := ceilDiv (buildSpecPrompt params).length CHARS_PER_TOKEN
  , output_tokens := ceilDiv responseText.length CHARS_PER_TOKEN
  , generation_ms := generationTime
  , model := GEMINI_FLASH
  , camera_angle := ((spec.getField "camera").bind (fun c => c.getField "angle")).bind Json.asStr
  , lighting := ((spec.getField "camera").bind (fun c => c.getField "lighting")).bind Json.asStr
  , success := true
  , quality_score := none
  , user_id := none
  , endpoint := "outfit_specification" }

/-- Direct translation of `generateOutfitSpecification` from
`geminiService.ts`.  The environment `model` resolves the single
`generateContent` call for the built prompt, and `generationTime` stands for
`Date.now() - startTime`.  Returns the function result (the parsed JSON, cast
unchecked to `OutfitSpec` by the source) together with the list of telemetry
records forwarded to `datadogMonitor.streamLLMTelemetry`:
- truthy `response.text` that parses: success telemetry, returns the value;
- truthy `response.text` that fails `JSON.parse`: the thrown `SyntaxError` is
  caught, failure telemetry, re-thrown;
- missing/empty `response.text`: `throw new Error("No JSON returned")`,
  caught, failure telemetry, re-thrown;
- rejected call: caught, failure telemetry, re-thrown. -/
def generateOutfitSpecification (params : OutfitParams) (model : String → SpecCall)
    (generationTime : Nat) : Except String Json × List GenerationTelemetry :=
  let prompt := buildSpecPrompt params
  match model prompt with
  | .reject e => (Except.error e, [specFailureTelemetry params generationTime])
  | .resolve r =>
    match r.text with
    | some t =>
      if t == "" then
        (Except.error "No JSON returned", [specFailureTelemetry params generationTime])
      else
        match jsonParse t with
        | some spec =>
          (Except.ok spec, [specSuccessTelemetry params t spec generationTime])
        | none =>
          (Except.error "SyntaxError: Unexpected token in JSON",
            [specFailureTelemetry params generationTime])
    | none =>
      (Except.error "No JSON returned", [specFailureTelemetry params generationTime])

/-! ## Image generator (`geminiService.ts`, `generateOutfitImage`) -/

/-- The `OutfitSpec` interface of `types.ts` (the shape the repository's data
model section describes, identical to the response schema the generator
requests): every field present, as the static type declares. -/
structure ColorEntry where
  hex : String
  role : String
deriving DecidableEq, Repr

structure Weather where
  temperature : ℚ
  conditions : String
deriving DecidableEq, Repr

structure ColorScheme where
  primary : ColorEntry
  accent : ColorEntry
deriving DecidableEq, Repr

structure TextureLayer where
  material : String
  weight : String
  sheen : ℚ
deriving DecidableEq, Repr

structure SpecCamera where
  angle : String
  lighting : String
deriving DecidableEq, Repr

structure OutfitSpec where
  occasion : String
  weather : Weather
  color_scheme : ColorScheme
  texture_layers : List TextureLayer
  camera : SpecCamera
  description : String
deriving DecidableEq, Repr

/-- The image prompt template literal of `generateOutfitImage`, built before
the `try` block from the typed spec. -/
def buildImagePrompt (spec : OutfitSpec) : String :=
  "\n    Professional high-fashion photography.\n    " ++ spec.description ++
    ".\n    Lighting: " ++ spec.camera.lighting ++
    ".\n    Camera Angle: " ++ spec.camera.angle ++
    ".\n    Materials: " ++
    String.intercalate ", "
      (spec.texture_layers.map (fun t => t.material ++ " (" ++ t.weight ++ ")")) ++
    ".\n    Colors: Primary " ++ spec.color_scheme.primary.hex ++
    ", Accent " ++ spec.color_scheme.accent.hex ++
    ".\n    Photorealistic, 8k, highly detailed texture.\n  "

/-- `part.inlineData` of a generation response part. -/
structure InlineData where
  data : String
deriving DecidableEq, Repr

structure ImgPart where
  text : Option String
  inlineData : Option InlineData
deriving DecidableEq, Repr

structure ImgContent where
  parts : Option (List ImgPart)
deriving DecidableEq, Repr

structure ImgCandidate where
  content : Option ImgContent
deriving DecidableEq, Repr

structure ImgResponse where
  candidates : Option (List ImgCandidate)
deriving DecidableEq, Repr

/-- Outcome of the `generateContent` call for the image request. -/
inductive ImgCall where
  | resolve (response : ImgResponse)
  | reject (errorMessage : String)
deriving DecidableEq, Repr

/-- The loop `for (const part of response.candidates?.[0]?.content?.parts || [])`
returning the first part carrying `inlineData`. -/
def firstInlineData (r : ImgResponse) : Option String :=
  let parts :=
    ((((r.candidates.bind List.head?).bind ImgCandidate.content).bind ImgContent.parts).getD [])
  (parts.find? (fun p => p.inlineData.isSome)).bind (fun p => p.inlineData.map InlineData.data)

/-- The fallback URL of `generateOutfitImage`. -/
def PLACEHOLDER_IMAGE_URL : String := "https://picsum.photos/800/1000?grayscale"

/-- Direct translation of `generateOutfitImage` from `geminiService.ts`: build
the prompt, call the model; return the first inline image as a data URL; on a
rejected call, or when no part carries inline data (`throw` inside the `try`),
the `catch` swallows the error and returns the placeholder URL.  The return
type `String` reflects that the function never propagates an error. -/
def generateOutfitImage (spec : OutfitSpec) (model : String → ImgCall) : String :=
  let imagePrompt := buildImagePrompt spec
  match model imagePrompt with
  | .reject _ => PLACEHOLDER_IMAGE_URL
  | .resolve r =>
    match firstInlineData r with
    | some d => "data:image/png;base64," ++ d
    | none => PLACEHOLDER_IMAGE_URL

/-! ## FIBO generator (`fiboService.ts`) -/

/-- JavaScript `x || default` for an optional number (`0` is falsy). -/
def jsOrNum (x : Option ℚ) (dflt : ℚ) : ℚ :=
  match x with
  | some q => if q == 0 then dflt else q
  | none => dflt

/-- JavaScript `x || default` for an optional string (`""` is falsy). -/
def jsOrStr (x : Option String) (dflt : String) : String :=
  match x with
  | some s => if s == "" then dflt else s
  | none => dflt

/-- A JSON field holding an object-like value: `null` is merged with `absent`
(both are falsy and both throw on property access). -/
def Json.getObjField (j : Json) (key : String) : Option Json :=
  match j.getField key with
  | some .null => none
  | v => v

def WeatherRT.ofJson (j : Json) : WeatherRT :=
  { temperature := (j.getField "temperature").bind Json.asNum
  , conditions := (j.getField "conditions").bind Json.asStr }

def ColorRT.ofJson (j : Json) : ColorRT :=
  { hex := (j.getField "hex").bind Json.asStr
  , role := (j.getField "role").bind Json.asStr }

def ColorSchemeRT.ofJson (j : Json) : ColorSchemeRT :=
  { primary := (j.getObjField "primary").map ColorRT.ofJson
  , accent := (j.getObjField "accent").map ColorRT.ofJson }

def TextureLayerRT.ofJson (j : Json) : TextureLayerRT :=
  { material := (j.getField "material").bind Json.asStr
  , weight := (j.getField "weight").bind Json.asStr
  , sheen := (j.getField "sheen").bind Json.asNum }

def CameraRT.ofJson (j : Json) : CameraRT :=
  { angle := (j.getField "angle").bind Json.asStr
  , lighting := (j.getField "lighting").bind Json.asStr
  , fov := (j.getField "fov").bind Json.asNum
  , lighting_temperature := (j.getField "lighting_temperature").bind Json.asNum }

def StyleParametersRT.ofJson (j : Json) : StyleParametersRT :=
  { realism := (j.getField "realism").bind Json.asNum
  , aesthetic := (j.getField "aesthetic").bind Json.asStr }

/-- The runtime value `JSON.parse(response.text) as FIBOOutfitSpec`: each
field access of the consumers, interpreted over the parsed JSON. -/
def FIBOOutfitSpec.ofJson (j : Json) : FIBOOutfitSpec :=
  { occasion := (j.getField "occasion").bind Json.asStr
  , weather := (j.getObjField "weather").map WeatherRT.ofJson
  , color_scheme := (j.getObjField "color_scheme").map ColorSchemeRT.ofJson
  , texture_layers := ((j.getField "texture_layers").bind Json.asArr).map
      (List.map TextureLayerRT.ofJson)
  , camera := (j.getObjField "camera").map CameraRT.ofJson
  , style_parameters := (j.getObjField "style_parameters").map StyleParametersRT.ofJson
  , description := (j.getField "description").bind Json.asStr
  , fibo_structured_params := none }

/-- The message of the `TypeError` JavaScript raises when a property of
`undefined` (or `null`) is read. -/
def TYPE_ERROR : String := "TypeError: cannot read properties of undefined"

/-- The `spec.fibo_structured_params = ...` attachment of `generateFIBOOutfit`
(lines after the parse): unguarded accesses `spec.camera.angle`,
`spec.style_parameters.realism`, `spec.texture_layers[0]`,
`spec.color_scheme.primary.hex` throw when the receiver is missing;
`|| 75`, `|| 5500`, `?.material || "cotton"`, `?.material || "silk"` supply
defaults. -/
def attachFIBOParams (spec : FIBOOutfitSpec) : Except String FIBOOutfitSpec :=
  match spec.camera with
  | none => Except.error TYPE_ERROR
  | some cam =>
    match spec.style_parameters with
    | none => Except.error TYPE_ERROR
    | some sp =>
      match spec.texture_layers with
      | none => Except.error TYPE_ERROR
      | some layers =>
        match spec.color_scheme with
        | none => Except.error TYPE_ERROR
        | some cs =>
          match cs.primary, cs.accent with
          | some prim, some acc =>
            let fiboParams : FIBOParameters :=
              { prompt := "professional outfit generation"
              , camera_angle := cam.angle
              , camera_fov := jsOrNum cam.fov 75
              , lighting_type := cam.lighting
              , lighting_temperature := jsOrNum cam.lighting_temperature 5500
              , style_realism := sp.realism
              , style_aesthetic := sp.aesthetic
              , materials_primary := jsOrStr ((layers.get? 0).bind TextureLayerRT.material) "cotton"
              , materials_secondary := jsOrStr ((layers.get? 1).bind TextureLayerRT.material) "silk"
              , colors_palette := [prim.hex, acc.hex]
              , colors_harmony := "analogous" }
            Except.ok { spec with fibo_structured_params := some fiboParams }
          | _, _ => Except.error TYPE_ERROR

/-- The pieces of the prompt template literal of `generateFIBOOutfit`, around
the four interpolated parameters. -/
def fiboPromptA : String :=
  "\n    You are the \"FIBO Engine\" (Fashion Intelligence with Balanced Optimization).\n    Generate a highly structured outfit specification with professional-grade visual control.\n    \n    User Parameters:\n    - Occasion: "

def fiboPromptB : String := "\n    - Weather: "

def fiboPromptC : String := "\n    - Mood: "

def fiboPromptD : String := "\n    - Style: "

def fiboPromptE : String :=
  "\n    \n    Create a comprehensive JSON specification with:\n    1. Precise camera parameters (angle: three_quarter/front/low_angle_hero, FOV: 50-90)\n    2. Professional lighting (type: studio/natural/rembrandt_contrast, temperature: 3000-6500K)\n    3. Style control (realism: 0.0-1.0, aesthetic descriptor)\n    4. Material specifications (primary and secondary fabrics)\n    5. Color harmony (palette with hex codes, harmony type: analogous/complementary/triadic)\n    6. Detailed texture layers with physical properties\n    \n    Return ONLY valid JSON matching the specified structure.\n  "

/-- The prompt template literal of `generateFIBOOutfit`. -/
def buildFIBOPrompt (params : OutfitParams) : String :=
  fiboPromptA ++ params.occasion ++ fiboPromptB ++ params.weather ++
    fiboPromptC ++ params.mood ++ fiboPromptD ++ params.style ++ fiboPromptE

/-- Direct translation of `generateFIBOOutfit` from `fiboService.ts` (its
`catch` only logs and re-throws, so failures pass through): parse the
response text, attach `fibo_structured_params`, return the spec; missing or
empty text throws `"No JSON returned from FIBO engine"`.  The environment
`model` resolves the `generateContent` call for the built prompt. -/
def generateFIBOOutfit (params : OutfitParams) (model : String → SpecCall) :
    Except String FIBOOutfitSpec :=
  match model (buildFIBOPrompt params) with
  | .reject e => Except.error e
  | .resolve r =>
    match r.text with
    | some t =>
      if t == "" then Except.error "No JSON returned from FIBO engine"
      else
        match jsonParse t with
        | some j => attachFIBOParams (FIBOOutfitSpec.ofJson j)
        | none => Except.error "SyntaxError: Unexpected token in JSON"
    | none => Except.error "No JSON returned from FIBO engine"

/-- A valid 6-digit hex colour string: `'#'` followed by six hex digits (the
shape every colour in the repository's examples takes). -/
def validSixDigitHex (s : String) : Bool :=
  match s.toList with
  | '#' :: rest => rest.length == 6 && rest.all isHexDigitCh
  | _ => false

/-- The schema-conformance property the spec claims of every successful
generation result (its testable-properties section): `texture_layers` is a
non-empty array and `color_scheme` carries two valid 6-digit hex colours.
Stated on the parsed JSON the generator returns. -/
def specSchemaConformant (j : Json) : Bool :=
  (match (j.getField "texture_layers").bind Json.asArr with
   | some l => decide (0 < l.length)
   | none => false) &&
  (match j.getField "color_scheme" with
   | some cs =>
     (match (cs.getField "primary").bind (fun p => (p.getField "hex").bind Json.asStr) with
      | some h => validSixDigitHex h
      | none => false) &&
     (match (cs.getField "accent").bind (fun p => (p.getField "hex").bind Json.asStr) with
      | some h => validSixDigitHex h
      | none => false)
   | none => false)

/-- A well-formed FIBO response text used as a concrete generation result. -/
def fiboWitnessText : String :=
  "\x7b\"camera\":\x7b\"angle\":\"front\",\"lighting\":\"studio\"\x7d,\"style_parameters\":\x7b\"realism\":1\x7d,\"texture_layers\":[],\"color_scheme\":\x7b\"primary\":\x7b\"hex\":\"#1a1a1a\"\x7d,\"accent\":\x7b\"hex\":\"#2c3e50\"\x7d\x7d\x7d"

/-- The runtime spec `generateFIBOOutfit` produces from `fiboWitnessText`. -/
def fiboWitnessSpec : FIBOOutfitSpec :=
  { occasion := none
  , weather := none
  , color_scheme := some ⟨some ⟨some "#1a1a1a", none⟩, some ⟨some "#2c3e50", none⟩⟩
  , texture_layers := some []
  , camera := some ⟨some "front", some "studio", none, none⟩
  , style_parameters := some ⟨some 1, none⟩
  , description := none
  , fibo_structured_params := some
      ⟨"professional outfit generation", some "front", 75, some "studio", 5500,
        some 1, none, "cotton", "silk", [some "#1a1a1a", some "#2c3e50"], "analogous"⟩ }

/-! ## Router failure telemetry (`unifiedPlatformService.ts`) -/

/-- The `errorTelemetry` record built in the `catch` of `processUserRequest`:
all-zero token counts and `success: false`. -/
def platformErrorTelemetry (processingTime : Nat) (userId : String) :
    GenerationTelemetry :=
  { input_tokens := 0
  , output_tokens := 0
  , generation_ms := processingTime
  , model := "gemini-2.5-flash"
  , camera_angle := none
  , lighting := none
  , success := false
  , quality_score := none
  , user_id := some userId
  , endpoint := "outfit_generation" }

end Aurelian

namespace Aurelian

/-- `generateFIBOBatch` proper: the batch loop applied to `generateFIBOOutfit`,
where `env` resolves each request's model call. -/
def generateFIBOBatch (env : OutfitParams → String → SpecCall)
    (paramsArray : List OutfitParams) : Except String (List FIBOOutfitSpec) :=
  generateFIBOBatchG (fun params => generateFIBOOutfit params (env params)) paramsArray

/-! ## Theorems about the quality scorer -/

theorem calculateQualityScore_eq_scoreOfChecks (s : FIBOOutfitSpec) :
    calculateQualityScore (some s) =
      scoreOfChecks (checkColorScheme s) (checkTextureLayers s)
        (checkCamera s) (checkDescription s) := rfl

theorem scoreOfChecks_closed (c t m d : Bool) :
    scoreOfChecks c t m d =
      min (0.7 + (if c then (0.1 : ℚ) else 0) + (if t then (0.1 : ℚ) else 0)
               + (if m then (0.05 : ℚ) else 0) + (if d then (0.05 : ℚ) else 0)) 1.0 := by
  cases c <;> cases t <;> cases m <;> cases d <;> norm_num [scoreOfChecks]

theorem scoreOfChecks_bounds (c t m d : Bool) :
    0.7 ≤ scoreOfChecks c t m d ∧ scoreOfChecks c t m d ≤ 1 := by
  cases c <;> cases t <;> cases m <;> cases d <;> norm_num [scoreOfChecks]

/-- An `if`-guarded nonnegative increment is monotone in its guard. -/
theorem ite_incr_mono (b b' : Bool) (r : ℚ) (hr : 0 ≤ r) (h : b = true → b' = true) :
    (if b then r else 0) ≤ (if b' then r else 0) := by
  cases b
  · cases b' <;> simp [hr]
  · rw [h rfl]

/-- Claim C1: the quality scorer, given no `OutfitSpec`, returns exactly 0;
given any `OutfitSpec`, it returns 0.7 plus 0.1 if `color_scheme` is present,
plus 0.1 if `texture_layers` is present and non-empty, plus 0.05 if `camera`
is present, plus 0.05 if `description` is present and longer than 50
characters, with the sum capped at 1.0. -/
theorem qualityScore_base_and_increments :
    calculateQualityScore none = 0 ∧
    ∀ s : FIBOOutfitSpec,
      calculateQualityScore (some s) =
        min (0.7 + (if checkColorScheme s then (0.1 : ℚ) else 0)
                 + (if checkTextureLayers s then (0.1 : ℚ) else 0)
                 + (if checkCamera s then (0.05 : ℚ) else 0)
                 + (if checkDescription s then (0.05 : ℚ) else 0)) 1.0 := by
  exact ⟨rfl, fun s =>
    (calculateQualityScore_eq_scoreOfChecks s).trans
      (scoreOfChecks_closed (checkColorScheme s) (checkTextureLayers s)
        (checkCamera s) (checkDescription s))⟩

/-- Claim C6: the quality score is monotonic in the four presence checks —
if every check that holds for `s` also holds for `t`, then the score of `s`
is at most the score of `t` — and every returned score (including the absent
case) lies in the interval [0, 1]. -/
theorem qualityScore_monotone_and_bounded :
    (∀ s t : FIBOOutfitSpec,
      (checkColorScheme s = true → checkColorScheme t = true) →
      (checkTextureLayers s = true → checkTextureLayers t = true) →
      (checkCamera s = true → checkCamera t = true) →
      (checkDescription s = true → checkDescription t = true) →
      calculateQualityScore (some s) ≤ calculateQualityScore (some t)) ∧
    ∀ o : Option FIBOOutfitSpec,
      0 ≤ calculateQualityScore o ∧ calculateQualityScore o ≤ 1 := by
  have mono : ∀ c t m d c' t' m' d' : Bool,
      (c = true → c' = true) → (t = true → t' = true) →
      (m = true → m' = true) → (d = true → d' = true) →
      scoreOfChecks c t m d ≤ scoreOfChecks c' t' m' d' := by
    intro c t m d c' t' m' d' h1 h2 h3 h4
    rw [scoreOfChecks_closed, scoreOfChecks_closed]
    refine min_le_min (add_le_add (add_le_add (add_le_add (add_le_add le_rfl ?_) ?_) ?_) ?_) le_rfl
    · exact ite_incr_mono c c' 0.1 (by norm_num) h1
    · exact ite_incr_mono t t' 0.1 (by norm_num) h2
    · exact ite_incr_mono m m' 0.05 (by norm_num) h3
    · exact ite_incr_mono d d' 0.05 (by norm_num) h4
  constructor
  · intro s t h1 h2 h3 h4
    rw [calculateQualityScore_eq_scoreOfChecks s, calculateQualityScore_eq_scoreOfChecks t]
    exact mono _ _ _ _ _ _ _ _ h1 h2 h3 h4
  · intro o
    match o with
    | none => exact ⟨le_refl 0, by norm_num [calculateQualityScore]⟩
    | some s =>
      rw [calculateQualityScore_eq_scoreOfChecks s]
      have hb := scoreOfChecks_bounds (checkColorScheme s) (checkTextureLayers s)
        (checkCamera s) (checkDescription s)
      exact ⟨le_trans (by norm_num) hb.1, hb.2⟩

/-- Witness for the monotonicity claim C6 at concrete specs: the empty spec
versus a spec with a camera present. -/
theorem qualityScore_monotone_witness :
    calculateQualityScore (some ⟨none, none, none, none, none, none, none, none⟩) ≤
      calculateQualityScore
        (some ⟨none, none, none, none, some ⟨none, none, none, none⟩, none, none, none⟩) :=
  qualityScore_monotone_and_bounded.1
    ⟨none, none, none, none, none, none, none, none⟩
    ⟨none, none, none, none, some ⟨none, none, none, none⟩, none, none, none⟩
    (by decide) (by decide) (by decide) (by decide)

/-- Claim C9 (implicit): every spec actually supplied to the scorer receives a
score of at least 0.7 — even the spec with every field missing — so the range
of the scorer is contained in the gapped set {0} ∪ [0.7, 1]. -/
theorem qualityScore_gap :
    (∀ s : FIBOOutfitSpec,
      0.7 ≤ calculateQualityScore (some s) ∧ calculateQualityScore (some s) ≤ 1) ∧
    ∀ o : Option FIBOOutfitSpec,
      calculateQualityScore o = 0 ∨
        (0.7 ≤ calculateQualityScore o ∧ calculateQualityScore o ≤ 1) := by
  have key : ∀ s : FIBOOutfitSpec,
      0.7 ≤ calculateQualityScore (some s) ∧ calculateQualityScore (some s) ≤ 1 := by
    intro s
    rw [calculateQualityScore_eq_scoreOfChecks s]
    exact scoreOfChecks_bounds _ _ _ _
  refine ⟨key, fun o => ?_⟩
  match o with
  | none => exact Or.inl rfl
  | some s => exact Or.inr (key s)

/-! ## Theorems about parameter extraction -/

/-- Claim C10 (implicit): `extractParamsFromText` always returns weather
`'moderate'`, mood `'confident'`, and style `'modern professional'`; only the
occasion depends on the text, via the case-insensitive keyword lookup
`extractOccasion`, which returns `'casual'` whenever none of the fixed
keywords occurs in the lower-cased text. -/
theorem extractParams_fixed_fields :
    (∀ text : String,
      extractParamsFromText text =
        { occasion := extractOccasion text
        , weather := "moderate"
        , mood := "confident"
        , style := "modern professional" }) ∧
    ∀ text : String,
      (∀ kv ∈ occasionMap, jsIncludes (jsToLowerCase text) kv.1 = false) →
      extractOccasion text = "casual" := by
  refine ⟨fun _ => rfl, fun text h => ?_⟩
  unfold extractOccasion
  have hnone : occasionMap.find? (fun kv => jsIncludes (jsToLowerCase text) kv.1) = none := by
    apply List.find?_eq_none.mpr
    intro kv hkv
    simp [h kv hkv]
  simp [hnone]

/-- Witness for claim C10 at the concrete text `"Hello there!"`, which contains
none of the occasion keywords. -/
theorem extractParams_fixed_fields_witness :
    extractOccasion "Hello there!" = "casual" :=
  extractParams_fixed_fields.2 "Hello there!" (by decide)

/-! ## Theorems about the conversation history -/

theorem lastN_length_le (n : Nat) (l : List α) : (lastN n l).length ≤ n := by
  simp only [lastN, List.length_drop]
  omega

/-- The `let` of `updateConversationHistory`, unfolded. -/
theorem updateConversationHistory_def (history : List Exchange) (u a ts : String) :
    updateConversationHistory history u a ts =
      if 10 < (history ++ [(⟨u, a, ts⟩ : Exchange)]).length
        then (history ++ [(⟨u, a, ts⟩ : Exchange)]).drop 1
        else history ++ [(⟨u, a, ts⟩ : Exchange)] := rfl

/-- One update step: if a history is the suffix of the most recent 10 entries
of a stream, pushing one more exchange keeps it the most recent 10 of the
extended stream. -/
theorem updateConversationHistory_step (s : List Exchange) (u a ts : String) :
    updateConversationHistory (lastN 10 s) u a ts =
      lastN 10 (s ++ [(⟨u, a, ts⟩ : Exchange)]) := by
  rw [updateConversationHistory_def]
  unfold lastN
  have hdlen : (s.drop (s.length - 10)).length = s.length - (s.length - 10) :=
    List.length_drop _ _
  split
  next hgt =>
    have hlen : 10 ≤ s.length := by
      rw [List.length_append, hdlen] at hgt
      simp only [List.length_cons, List.length_nil] at hgt
      omega
    rw [List.drop_append_of_le_length (by rw [hdlen]; omega : 1 ≤ (s.drop (s.length - 10)).length)]
    rw [show (s ++ [(⟨u, a, ts⟩ : Exchange)]).length - 10 = s.length - 10 + 1 by
      rw [List.length_append]; simp only [List.length_cons, List.length_nil]; omega]
    rw [List.drop_append_of_le_length (show s.length - 10 + 1 ≤ s.length by omega)]
    rw [List.drop_drop]
  next hng =>
    have hlen : s.length ≤ 9 := by
      rw [List.length_append, hdlen] at hng
      simp only [List.length_cons, List.length_nil] at hng
      omega
    rw [show s.length - 10 = 0 by omega]
    rw [show (s ++ [(⟨u, a, ts⟩ : Exchange)]).length - 10 = 0 by
      rw [List.length_append]; simp only [List.length_cons, List.length_nil]; omega]
    rw [List.drop_zero, List.drop_zero]

theorem exchangesFor_append (userId : String) (us : List HistoryUpdate) (u : HistoryUpdate) :
    exchangesFor userId (us ++ [u]) =
      exchangesFor userId us ++
        (if u.userId = userId then [⟨u.userMessage, u.assistantMessage, u.timestamp⟩] else []) := by
  unfold exchangesFor
  rw [List.filterMap_append]
  by_cases h : u.userId = userId <;> simp [h]

theorem updateConversationMap_same (m : ConversationMap) (uid u a ts : String) :
    updateConversationMap m uid u a ts uid = updateConversationHistory (m uid) u a ts := by
  unfold updateConversationMap
  rw [if_pos rfl]

theorem updateConversationMap_other (m : ConversationMap) (uid u a ts k : String)
    (h : k ≠ uid) : updateConversationMap m uid u a ts k = m k := by
  unfold updateConversationMap
  rw [if_neg h]

theorem applyUpdates_append_one (m : ConversationMap) (us : List HistoryUpdate)
    (u : HistoryUpdate) :
    applyUpdates m (us ++ [u]) =
      updateConversationMap (applyUpdates m us) u.userId u.userMessage
        u.assistantMessage u.timestamp := by
  unfold applyUpdates
  rw [List.foldl_append]
  rfl

/-- Replaying any update sequence from the empty map leaves each user's stored
history equal to the most recent 10 of that user's exchanges. -/
theorem applyUpdates_eq_lastN (updates : List HistoryUpdate) (userId : String) :
    applyUpdates emptyConversationMap updates userId =
      lastN 10 (exchangesFor userId updates) := by
  induction updates using List.reverseRecOn with
  | nil => rfl
  | append_singleton us u ih =>
    rw [applyUpdates_append_one, exchangesFor_append]
    by_cases h : u.userId = userId
    · subst h
      rw [if_pos rfl, updateConversationMap_same, ih, updateConversationHistory_step]
    · rw [if_neg h, updateConversationMap_other _ _ _ _ _ _ (fun he => h he.symm),
        List.append_nil, ih]

/-- Claim C8: after every sequence of history updates starting from the fresh
assistant's empty map, each user id stores at most 10 exchanges, and they are
exactly the most recent 10 exchanges recorded for that user id — each update
appends the new exchange and, once the bound is exceeded, drops only the
oldest entry. -/
theorem conversationHistory_bounded :
    (∀ (updates : List HistoryUpdate) (userId : String),
      (applyUpdates emptyConversationMap updates userId).length ≤ 10 ∧
      applyUpdates emptyConversationMap updates userId =
        lastN 10 (exchangesFor userId updates)) ∧
    ∀ (history : List Exchange) (u a ts : String),
      updateConversationHistory history u a ts =
        (if 10 < history.length + 1
          then (history ++ [(⟨u, a, ts⟩ : Exchange)]).drop 1
          else history ++ [(⟨u, a, ts⟩ : Exchange)]) := by
  constructor
  · intro updates userId
    have h := applyUpdates_eq_lastN updates userId
    exact ⟨h ▸ lastN_length_le 10 _, h⟩
  · intro history u a ts
    rw [updateConversationHistory_def]
    simp only [List.length_append, List.length_cons, List.length_nil]

/-! ## Theorems about the batch runner -/

theorem mapM_ok_of_all_ok (gen : OutfitParams → Except String FIBOOutfitSpec)
    (f : OutfitParams → FIBOOutfitSpec) (l : List OutfitParams)
    (h : ∀ p ∈ l, gen p = Except.ok (f p)) :
    l.mapM gen = Except.ok (l.map f) := by
  induction l with
  | nil => rfl
  | cons x xs ih =>
    rw [List.mapM_cons, h x (List.mem_cons_self x xs),
      ih (fun p hp => h p (List.mem_cons_of_mem x hp))]
    rfl

theorem generateFIBOBatchG_ok (gen : OutfitParams → Except String FIBOOutfitSpec)
    (f : OutfitParams → FIBOOutfitSpec) (ps : List OutfitParams)
    (h : ∀ p ∈ ps, gen p = Except.ok (f p)) :
    generateFIBOBatchG gen ps = Except.ok (ps.map f) := by
  induction ps using chunks3.induct with
  | case1 => simp only [generateFIBOBatchG, List.map_nil]
  | case2 x xs ih =>
    rw [generateFIBOBatchG.eq_def]
    simp only
    rw [mapM_ok_of_all_ok gen f _ (fun p hp => h p (List.mem_of_mem_take hp))]
    rw [ih (fun p hp => h p (List.mem_of_mem_drop hp))]
    show Except.ok (((x :: xs).take 3).map f ++ ((x :: xs).drop 3).map f) = _
    rw [← List.map_append, List.take_append_drop]

theorem chunks3_flatten (l : List α) : (chunks3 l).flatten = l := by
  induction l using chunks3.induct with
  | case1 => simp only [chunks3, List.flatten_nil]
  | case2 x xs ih =>
    rw [chunks3]
    rw [List.flatten_cons, ih, List.take_append_drop]

theorem chunks3_sizes_seven (l : List α) (h : l.length = 7) :
    (chunks3 l).map List.length = [3, 3, 1] := by
  match l, h with
  | [a, b, c, d, e, f, g], _ =>
    rw [chunks3.eq_def]
    simp only [List.take, List.drop]
    rw [chunks3.eq_def]
    simp only [List.take, List.drop]
    rw [chunks3.eq_def]
    simp only [List.take, List.drop]
    rw [chunks3.eq_def]
    simp

/-- Claim C4: when every per-item generation succeeds, the batch runner
returns exactly one result per request, in input order (the result list is
the pointwise image of the request list), the requests being processed as
consecutive chunks of size 3 — so 7 requests form chunks of sizes 3, 3, 1. -/
theorem generateFIBOBatch_preserves_order :
    ∀ (env : OutfitParams → String → SpecCall) (f : OutfitParams → FIBOOutfitSpec)
      (ps : List OutfitParams),
      (∀ p ∈ ps, generateFIBOOutfit p (env p) = Except.ok (f p)) →
      generateFIBOBatch env ps = Except.ok (ps.map f) ∧
      (ps.map f).length = ps.length ∧
      (chunks3 ps).flatten = ps ∧
      (ps.length = 7 → (chunks3 ps).map List.length = [3, 3, 1]) := by
  intro env f ps h
  exact ⟨generateFIBOBatchG_ok _ f ps h, List.length_map ps f, chunks3_flatten ps,
    fun h7 => chunks3_sizes_seven ps h7⟩

set_option maxRecDepth 40000 in
/-- Witness for claim C4 at a batch of 7 identical concrete requests whose
model calls all resolve with `fiboWitnessText`. -/
theorem generateFIBOBatch_preserves_order_witness :
    generateFIBOBatch (fun _ _ => SpecCall.resolve ⟨some fiboWitnessText⟩)
        (List.replicate 7 (⟨"Evening Gala", "Cool 15C", "Elegant", "Classic"⟩ : OutfitParams)) =
      Except.ok ((List.replicate 7
        (⟨"Evening Gala", "Cool 15C", "Elegant", "Classic"⟩ : OutfitParams)).map
          (fun _ => fiboWitnessSpec)) ∧
    ((List.replicate 7 (⟨"Evening Gala", "Cool 15C", "Elegant", "Classic"⟩ : OutfitParams)).map
        (fun _ => fiboWitnessSpec)).length =
      (List.replicate 7 (⟨"Evening Gala", "Cool 15C", "Elegant", "Classic"⟩ : OutfitParams)).length ∧
    (chunks3 (List.replicate 7
        (⟨"Evening Gala", "Cool 15C", "Elegant", "Classic"⟩ : OutfitParams))).flatten =
      List.replicate 7 (⟨"Evening Gala", "Cool 15C", "Elegant", "Classic"⟩ : OutfitParams) ∧
    ((List.replicate 7 (⟨"Evening Gala", "Cool 15C", "Elegant", "Classic"⟩ : OutfitParams)).length = 7 →
      (chunks3 (List.replicate 7
        (⟨"Evening Gala", "Cool 15C", "Elegant", "Classic"⟩ : OutfitParams))).map List.length =
        [3, 3, 1]) :=
  generateFIBOBatch_preserves_order
    (fun _ _ => SpecCall.resolve ⟨some fiboWitnessText⟩)
    (fun _ => fiboWitnessSpec)
    (List.replicate 7 (⟨"Evening Gala", "Cool 15C", "Elegant", "Classic"⟩ : OutfitParams))
    (fun _ _ => rfl)

/-! ## Theorems about the image generator -/

/-- Claim C3: for every `OutfitSpec` and every behaviour of the underlying
model call, `generateOutfitImage` returns a string (its total type), either
the fixed placeholder URL or a data URL; when the call rejects, or resolves
without any inline image data, the result is the placeholder URL. -/
theorem generateOutfitImage_never_throws :
    ∀ (spec : OutfitSpec) (model : String → ImgCall),
      (generateOutfitImage spec model = PLACEHOLDER_IMAGE_URL ∨
        ∃ d, generateOutfitImage spec model = "data:image/png;base64," ++ d) ∧
      (∀ e, model (buildImagePrompt spec) = ImgCall.reject e →
        generateOutfitImage spec model = PLACEHOLDER_IMAGE_URL) ∧
      (∀ r, model (buildImagePrompt spec) = ImgCall.resolve r → firstInlineData r = none →
        generateOutfitImage spec model = PLACEHOLDER_IMAGE_URL) := by
  intro spec model
  refine ⟨?_, ?_, ?_⟩
  · simp only [generateOutfitImage]
    rcases hc : model (buildImagePrompt spec) with r | e
    · rcases hd : firstInlineData r with _ | d
      · exact Or.inl (by simp [hd])
      · exact Or.inr ⟨d, by simp [hd]⟩
    · exact Or.inl rfl
  · intro e he
    simp only [generateOutfitImage, he]
  · intro r hr hd
    simp only [generateOutfitImage, hr, hd]

/-- Witness for claim C3 at a concrete fully-populated spec whose model call
rejects. -/
theorem generateOutfitImage_never_throws_witness :
    generateOutfitImage
        ⟨"gala", ⟨15, "cool"⟩, ⟨⟨"#101010", "base"⟩, ⟨"#d4af37", "accent"⟩⟩,
          [⟨"wool", "heavy", 0.1⟩], ⟨"front", "studio"⟩, "Charcoal wool coat"⟩
        (fun _ => ImgCall.reject "safety block") =
      PLACEHOLDER_IMAGE_URL :=
  (generateOutfitImage_never_throws
    ⟨"gala", ⟨15, "cool"⟩, ⟨⟨"#101010", "base"⟩, ⟨"#d4af37", "accent"⟩⟩,
      [⟨"wool", "heavy", 0.1⟩], ⟨"front", "studio"⟩, "Charcoal wool coat"⟩
    (fun _ => ImgCall.reject "safety block")).2.1 "safety block" rfl

/-! ## Theorems about the specification generator -/

set_option maxRecDepth 40000 in
theorem buildSpecPrompt_length_pos (params : OutfitParams) :
    0 < (buildSpecPrompt params).length := by
  have h1 : 0 < specPromptA.length := by decide
  simp only [buildSpecPrompt, String.length_append]
  omega

/-- Every call of the specification generator either succeeds with a success
record, or fails with exactly its failure record. -/
theorem generateOutfitSpecification_cases (params : OutfitParams)
    (model : String → SpecCall) (gt : Nat) :
    (∃ spec t, generateOutfitSpecification params model gt =
      (Except.ok spec, [specSuccessTelemetry params t spec gt])) ∨
    (∃ e, generateOutfitSpecification params model gt =
      (Except.error e, [specFailureTelemetry params gt])) := by
  simp only [generateOutfitSpecification]
  rcases model (buildSpecPrompt params) with r | e
  · rcases r with ⟨_ | t⟩
    · exact Or.inr ⟨"No JSON returned", rfl⟩
    · simp only
      rcases het : (t == "") with _ | _
      · simp only [het, Bool.false_eq_true, if_false]
        rcases hp : jsonParse t with _ | j
        · exact Or.inr ⟨"SyntaxError: Unexpected token in JSON", rfl⟩
        · exact Or.inl ⟨j, t, rfl⟩
      · simp only [het, if_true]
        exact Or.inr ⟨"No JSON returned", rfl⟩
  · exact Or.inr ⟨e, rfl⟩

set_option maxRecDepth 40000 in
/-- Counterexample to claim C2 as stated: at concrete parameters, when the
model response resolves with no text, the telemetry record the specification
generator forwards has `success = false` and `output_tokens = 0` but its
`input_tokens` is not 0. -/
theorem specFailureTelemetry_input_tokens_not_zero :
    ((generateOutfitSpecification ⟨"casual", "rain", "calm", "modern"⟩
        (fun _ => SpecCall.resolve ⟨none⟩) 5).2.map
      (fun rec => (rec.input_tokens == 0, rec.output_tokens, rec.success))) =
      [(false, 0, false)] := rfl

/-- Claim C2, amended: whenever specification generation fails, the record the
generator forwards is exactly its failure record, which has `output_tokens = 0`
and `success = false` but `input_tokens` equal to the prompt's estimated token
count, which is positive; the unified platform's request-level failure record
is the one with `input_tokens = 0`, `output_tokens = 0`, `success = false`. -/
theorem specGeneration_failure_telemetry :
    (∀ (params : OutfitParams) (model : String → SpecCall) (gt : Nat),
      (generateOutfitSpecification params model gt).1.isOk = false →
        (generateOutfitSpecification params model gt).2 = [specFailureTelemetry params gt] ∧
        (specFailureTelemetry params gt).output_tokens = 0 ∧
        (specFailureTelemetry params gt).success = false ∧
        (specFailureTelemetry params gt).input_tokens =
          ceilDiv (buildSpecPrompt params).length CHARS_PER_TOKEN ∧
        0 < (specFailureTelemetry params gt).input_tokens) ∧
    ∀ (pt : Nat) (uid : String),
      (platformErrorTelemetry pt uid).input_tokens = 0 ∧
      (platformErrorTelemetry pt uid).output_tokens = 0 ∧
      (platformErrorTelemetry pt uid).success = false := by
  constructor
  · intro params model gt hfail
    have hpos : 0 < (specFailureTelemetry params gt).input_tokens := by
      have := buildSpecPrompt_length_pos params
      simp only [specFailureTelemetry, ceilDiv, CHARS_PER_TOKEN]
      omega
    refine ⟨?_, rfl, rfl, rfl, hpos⟩
    rcases generateOutfitSpecification_cases params model gt with ⟨spec, t, hok⟩ | ⟨e, herr⟩
    · rw [hok] at hfail
      simp [Except.isOk, Except.toBool] at hfail
    · rw [herr]
  · intro pt uid
    exact ⟨rfl, rfl, rfl⟩

/-- Witness for the amended claim C2 at a concrete rejected call and a
concrete platform failure record. -/
theorem specGeneration_failure_telemetry_witness :
    ((generateOutfitSpecification ⟨"work", "sun", "calm", "modern"⟩
        (fun _ => SpecCall.reject "network error") 7).2 =
      [specFailureTelemetry ⟨"work", "sun", "calm", "modern"⟩ 7] ∧
      (specFailureTelemetry ⟨"work", "sun", "calm", "modern"⟩ 7).output_tokens = 0 ∧
      (specFailureTelemetry ⟨"work", "sun", "calm", "modern"⟩ 7).success = false ∧
      (specFailureTelemetry ⟨"work", "sun", "calm", "modern"⟩ 7).input_tokens =
        ceilDiv (buildSpecPrompt ⟨"work", "sun", "calm", "modern"⟩).length CHARS_PER_TOKEN ∧
      0 < (specFailureTelemetry ⟨"work", "sun", "calm", "modern"⟩ 7).input_tokens) ∧
    (platformErrorTelemetry 3 "user_123").input_tokens = 0 ∧
    (platformErrorTelemetry 3 "user_123").output_tokens = 0 ∧
    (platformErrorTelemetry 3 "user_123").success = false :=
  ⟨specGeneration_failure_telemetry.1 ⟨"work", "sun", "calm", "modern"⟩
      (fun _ => SpecCall.reject "network error") 7 rfl,
    specGeneration_failure_telemetry.2 3 "user_123"⟩

/-- Counterexample to claim C7 as stated: the error raised on an empty
response is `"No JSON returned"`, which is not the claimed string
`"no JSON returned"`. -/
theorem specGeneration_error_message_capitalised :
    (generateOutfitSpecification ⟨"work", "sunny", "calm", "modern"⟩
        (fun _ => SpecCall.resolve ⟨none⟩) 0).1 = Except.error "No JSON returned" ∧
      "No JSON returned" ≠ "no JSON returned" := ⟨rfl, by decide⟩

/-- Claim C7, amended: on a model response with missing or empty text, the
specification generators fail rather than returning a spec, with message
`"No JSON returned"` in `geminiService` and `"No JSON returned from FIBO
engine"` in `fiboService`. -/
theorem specGeneration_empty_text_fails :
    ∀ (params : OutfitParams) (model : String → SpecCall) (gt : Nat) (r : GenTextResponse),
      jsTruthy r.text = false →
      (model (buildSpecPrompt params) = SpecCall.resolve r →
        (generateOutfitSpecification params model gt).1 = Except.error "No JSON returned") ∧
      (model (buildFIBOPrompt params) = SpecCall.resolve r →
        generateFIBOOutfit params model = Except.error "No JSON returned from FIBO engine") := by
  intro params model gt r ht
  rcases r with ⟨_ | t⟩
  · constructor
    · intro hm
      simp only [generateOutfitSpecification, hm]
    · intro hm
      simp only [generateFIBOOutfit, hm]
  · simp only [jsTruthy, Bool.not_eq_false'] at ht
    constructor
    · intro hm
      simp only [generateOutfitSpecification, hm, ht, if_true]
    · intro hm
      simp only [generateFIBOOutfit, hm, ht, if_true]

/-- Witness for the amended claim C7 at concrete inputs whose model call
resolves without text. -/
theorem specGeneration_empty_text_fails_witness :
    (generateOutfitSpecification ⟨"date", "mild", "warm", "chic"⟩
        (fun _ => SpecCall.resolve ⟨none⟩) 1).1 = Except.error "No JSON returned" ∧
    generateFIBOOutfit ⟨"date", "mild", "warm", "chic"⟩
        (fun _ => SpecCall.resolve ⟨none⟩) =
      Except.error "No JSON returned from FIBO engine" := by
  have h := specGeneration_empty_text_fails ⟨"date", "mild", "warm", "chic"⟩
    (fun _ => SpecCall.resolve ⟨none⟩) 1 ⟨none⟩ rfl
  exact ⟨h.1 rfl, h.2 rfl⟩

/-- Counterexample to claim C5 as stated: the response text consisting of an
empty JSON object is accepted by the generator (it returns the parsed value),
yet the result has no `texture_layers` at all, let alone a non-empty list
with two valid hex colours. -/
theorem specGeneration_accepts_empty_object :
    (generateOutfitSpecification ⟨"gala", "cold", "bold", "classic"⟩
        (fun _ => SpecCall.resolve ⟨some "\x7b\x7d"⟩) 2).1 = Except.ok (Json.obj []) ∧
      specSchemaConformant (Json.obj []) = false := ⟨rfl, rfl⟩

/-- Claim C5, amended: the generator performs no schema validation of its own
— for every non-empty response text, it returns exactly the `JSON.parse`
result when parsing succeeds (whatever its shape) and fails only when parsing
fails; any schema conformance is whatever the remote model enforces. -/
theorem specGeneration_returns_parsed_json :
    ∀ (params : OutfitParams) (model : String → SpecCall) (gt : Nat) (t : String),
      model (buildSpecPrompt params) = SpecCall.resolve ⟨some t⟩ →
      (t == "") = false →
      (generateOutfitSpecification params model gt).1 =
        (match jsonParse t with
         | some j => Except.ok j
         | none => Except.error "SyntaxError: Unexpected token in JSON") := by
  intro params model gt t hm ht
  simp only [generateOutfitSpecification, hm, ht, Bool.false_eq_true, if_false]
  rcases hp : jsonParse t with _ | j <;> simp [hp]

/-- Witness for the amended claim C5 at the concrete accepted text `"[1]"`. -/
theorem specGeneration_returns_parsed_json_witness :
    (generateOutfitSpecification ⟨"party", "hot", "fun", "bold"⟩
        (fun _ => SpecCall.resolve ⟨some "[1]"⟩) 4).1 =
      (match jsonParse "[1]" with
       | some j => Except.ok j
       | none => Except.error "SyntaxError: Unexpected token in JSON") :=
  specGeneration_returns_parsed_json ⟨"party", "hot", "fun", "bold"⟩
    (fun _ => SpecCall.resolve ⟨some "[1]"⟩) 4 "[1]" rfl rfl

end Aurelian
